import Mathlib

/-!
Verification of the batched aviation-logbook extraction app (`src/app.py`).

The development shallowly embeds the pieces of `app.py` that the verified
properties are about: the pydantic data model (`AviationLogbookAudit` and its
nested records), the PDF rasterization loop (`pdf_to_images`), the batched
extraction loop behind the "Generate Logbook Audit Report" button
(lines 163-236), and the result-rendering tables (lines 279-321).

External collaborators are modelled as follows: the OpenAI structured-output
call is an oracle function `ChatRequest → Except ServiceError AviationLogbookAudit`;
PyMuPDF page rasterization is an oracle function from a page and a zoom matrix
to PNG bytes; `base64.b64encode` is implemented concretely over byte lists;
pydantic's `model_dump_json` is implemented concretely as a JSON dump of the
model in declaration order.  The source's `float` fields carry no verified
property, so they are modelled as integer-valued numbers to keep every
definition kernel-computable.
-/

/-! ## Data model (`src/app.py` lines 58-137) -/

/-- `AircraftInfo` (app.py lines 58-68).  The three time fields are Python
floats in the source; no verified property inspects them, so they are
modelled as integer-valued numbers. -/
structure AircraftInfo where
  make_model : String
  registration_number : String
  serial_number : String
  hobbs_time : Int
  tach_time : Int
  ttaf : Int
  engine_TSMOH : Option String := none
  propeller_TSPOH : Option String := none
  date_of_audit : Option String := none
  auditor_name : String
deriving DecidableEq

/-- `LogbookCondition` (app.py lines 70-75). -/
structure LogbookCondition where
  all_original_logs_present : Bool
  chronologically_organized : Bool
  legible_handwriting : Bool
  gaps_in_entries : Bool
  scanned_digital_copies_exist : Bool
deriving DecidableEq

/-- `InspectionEntry` (app.py lines 77-82). -/
structure InspectionEntry where
  inspection_type : String
  last_completed : Option String := none
  next_due : Option String := none
  completed : Bool
  notes : String
deriving DecidableEq

/-- `RequiredInspections` (app.py lines 84-85). -/
structure RequiredInspections where
  inspections : List InspectionEntry
deriving DecidableEq

/-- `ADEntry` (app.py lines 87-94). -/
structure ADEntry where
  ad_number : String
  description : String
  complied_date : Option String := none
  method_of_compliance : Option String := none
  recurring : Bool
  next_due : Option String := none
  notes : String
deriving DecidableEq

/-- `AirworthinessDirectives` (app.py lines 96-97). -/
structure AirworthinessDirectives where
  ads : List ADEntry
deriving DecidableEq

/-- `ComponentEntry` (app.py lines 99-103). -/
structure ComponentEntry where
  component : String
  time_since_overhaul : String
  next_due : String
  notes : String
deriving DecidableEq

/-- `TimeAndComponents` (app.py lines 105-106). -/
structure TimeAndComponents where
  components : List ComponentEntry
deriving DecidableEq

/-- `RepairsAndMods` (app.py lines 108-113). -/
structure RepairsAndMods where
  STCs_logged : Bool
  form_337s : Bool
  field_approvals : Bool
  updated_weight_balance : Bool
  avionics_upgrades : String
deriving DecidableEq

/-- `RegulatoryDocs` (app.py lines 115-120). -/
structure RegulatoryDocs where
  airworthiness_certificate : Bool
  registration_certificate : Bool
  current_POH_AFM : Bool
  MEL_applicable : Bool
  maintenance_tracking_reports : Bool
deriving DecidableEq

/-- `Summary` (app.py lines 122-127). -/
structure Summary where
  missing_items : String
  outstanding_maintenance_or_ADs : String
  logbook_gaps : String
  general_observations : String
  recommendations : String
deriving DecidableEq

/-- `AviationLogbookAudit` (app.py lines 129-137): the structured result the
extraction service returns for each batch. -/
structure AviationLogbookAudit where
  aircraft_info : AircraftInfo
  logbook_condition : LogbookCondition
  required_inspections : RequiredInspections
  airworthiness_directives : AirworthinessDirectives
  time_and_components : TimeAndComponents
  repairs_and_mods : RepairsAndMods
  regulatory_docs : RegulatoryDocs
  summary : Summary
deriving DecidableEq

/-! ## JSON serialization (model of pydantic `model_dump_json`)

`st.session_state.audit_results.model_dump_json()` (app.py line 193) is
pydantic library code; it is modelled here as a concrete JSON dump of the
model fields in declaration order, with minimal string escaping. -/

def jsonEscapeChar (c : Char) : String :=
  if c = '\\' then "\\\\"
  else if c = '"' then "\\\""
  else String.singleton c

def jsonEscape (s : String) : String :=
  String.join (s.toList.map jsonEscapeChar)

def jsonStr (s : String) : String := "\"" ++ jsonEscape s ++ "\""

def jsonOptStr : Option String → String
  | none => "null"
  | some s => jsonStr s

def jsonBool (b : Bool) : String := if b then "true" else "false"

def jsonObj (fields : List (String × String)) : String :=
  "\x7b" ++ String.intercalate "," (fields.map (fun p => jsonStr p.1 ++ ":" ++ p.2)) ++ "\x7d"

def jsonArr (xs : List String) : String :=
  "[" ++ String.intercalate "," xs ++ "]"

def AircraftInfo.dumpJson (a : AircraftInfo) : String :=
  jsonObj [("make_model", jsonStr a.make_model),
           ("registration_number", jsonStr a.registration_number),
           ("serial_number", jsonStr a.serial_number),
           ("hobbs_time", toString a.hobbs_time),
           ("tach_time", toString a.tach_time),
           ("ttaf", toString a.ttaf),
           ("engine_TSMOH", jsonOptStr a.engine_TSMOH),
           ("propeller_TSPOH", jsonOptStr a.propeller_TSPOH),
           ("date_of_audit", jsonOptStr a.date_of_audit),
           ("auditor_name", jsonStr a.auditor_name)]

def LogbookCondition.dumpJson (l : LogbookCondition) : String :=
  jsonObj [("all_original_logs_present", jsonBool l.all_original_logs_present),
           ("chronologically_organized", jsonBool l.chronologically_organized),
           ("legible_handwriting", jsonBool l.legible_handwriting),
           ("gaps_in_entries", jsonBool l.gaps_in_entries),
           ("scanned_digital_copies_exist", jsonBool l.scanned_digital_copies_exist)]

def InspectionEntry.dumpJson (i : InspectionEntry) : String :=
  jsonObj [("inspection_type", jsonStr i.inspection_type),
           ("last_completed", jsonOptStr i.last_completed),
           ("next_due", jsonOptStr i.next_due),
           ("completed", jsonBool i.completed),
           ("notes", jsonStr i.notes)]

def RequiredInspections.dumpJson (r : RequiredInspections) : String :=
  jsonObj [("inspections", jsonArr (r.inspections.map InspectionEntry.dumpJson))]

def ADEntry.dumpJson (a : ADEntry) : String :=
  jsonObj [("ad_number", jsonStr a.ad_number),
           ("description", jsonStr a.description),
           ("complied_date", jsonOptStr a.complied_date),
           ("method_of_compliance", jsonOptStr a.method_of_compliance),
           ("recurring", jsonBool a.recurring),
           ("next_due", jsonOptStr a.next_due),
           ("notes", jsonStr a.notes)]

def AirworthinessDirectives.dumpJson (a : AirworthinessDirectives) : String :=
  jsonObj [("ads", jsonArr (a.ads.map ADEntry.dumpJson))]

def ComponentEntry.dumpJson (c : ComponentEntry) : String :=
  jsonObj [("component", jsonStr c.component),
           ("time_since_overhaul", jsonStr c.time_since_overhaul),
           ("next_due", jsonStr c.next_due),
           ("notes", jsonStr c.notes)]

def TimeAndComponents.dumpJson (t : TimeAndComponents) : String :=
  jsonObj [("components", jsonArr (t.components.map ComponentEntry.dumpJson))]

def RepairsAndMods.dumpJson (r : RepairsAndMods) : String :=
  jsonObj [("STCs_logged", jsonBool r.STCs_logged),
           ("form_337s", jsonBool r.form_337s),
           ("field_approvals", jsonBool r.field_approvals),
           ("updated_weight_balance", jsonBool r.updated_weight_balance),
           ("avionics_upgrades", jsonStr r.avionics_upgrades)]

def RegulatoryDocs.dumpJson (r : RegulatoryDocs) : String :=
  jsonObj [("airworthiness_certificate", jsonBool r.airworthiness_certificate),
           ("registration_certificate", jsonBool r.registration_certificate),
           ("current_POH_AFM", jsonBool r.current_POH_AFM),
           ("MEL_applicable", jsonBool r.MEL_applicable),
           ("maintenance_tracking_reports", jsonBool r.maintenance_tracking_reports)]

def Summary.dumpJson (s : Summary) : String :=
  jsonObj [("missing_items", jsonStr s.missing_items),
           ("outstanding_maintenance_or_ADs", jsonStr s.outstanding_maintenance_or_ADs),
           ("logbook_gaps", jsonStr s.logbook_gaps),
           ("general_observations", jsonStr s.general_observations),
           ("recommendations", jsonStr s.recommendations)]

/-- Model of pydantic `model_dump_json` on `AviationLogbookAudit`
(called at app.py line 193). -/
def model_dump_json (a : AviationLogbookAudit) : String :=
  jsonObj [("aircraft_info", a.aircraft_info.dumpJson),
           ("logbook_condition", a.logbook_condition.dumpJson),
           ("required_inspections", a.required_inspections.dumpJson),
           ("airworthiness_directives", a.airworthiness_directives.dumpJson),
           ("time_and_components", a.time_and_components.dumpJson),
           ("repairs_and_mods", a.repairs_and_mods.dumpJson),
           ("regulatory_docs", a.regulatory_docs.dumpJson),
           ("summary", a.summary.dumpJson)]

/-! ## Images and base64 (app.py lines 18-35, 206-214) -/

/-- The image dictionaries built by `pdf_to_images` and
`process_uploaded_files`: raw bytes, an image subtype string, and a name. -/
structure ImageInfo where
  data : List Nat
  type : String
  name : String
deriving DecidableEq

/-- Abstract content of one PDF page (PyMuPDF `Page` object). -/
abbrev PdfPage : Type := List Nat

/-- An uploaded PDF payload: its file name and its pages. -/
structure PdfFile where
  name : String
  pages : List PdfPage

/-- `pdf_to_images` (app.py lines 18-35).  PyMuPDF rasterization
(`page.get_pixmap(matrix=fitz.Matrix(2, 2)).tobytes("png")`) is an external
collaborator, passed in as `rasterize : page → zoom matrix → PNG bytes`;
the source invokes it at the fixed zoom matrix `(2, 2)`. -/
def pdf_to_images (rasterize : PdfPage → Nat × Nat → List Nat) (pdf : PdfFile) :
    List ImageInfo :=
  (List.range pdf.pages.length).map (fun page_num =>
    { data := rasterize (pdf.pages.getD page_num ([] : List Nat)) (2, 2)
      type := "png"
      name := pdf.name ++ "_page_" ++ toString (page_num + 1) })

/-- The standard base64 alphabet (`base64.b64encode`, app.py line 207). -/
def b64Table : List Char :=
  "ABCDEFGHIJKLMNOPQRSTUVWXYZabcdefghijklmnopqrstuvwxyz0123456789+/".toList

def b64Char (n : Nat) : Char := b64Table.getD n '='

/-- Model of Python `base64.b64encode(...).decode("utf-8")` on a byte list. -/
def b64encode : List Nat → String
  | [] => ""
  | [a] =>
    String.mk [b64Char (a / 4 % 64), b64Char (a % 4 * 16), '=', '=']
  | [a, b] =>
    String.mk [b64Char (a / 4 % 64), b64Char (a % 4 * 16 + b / 16),
               b64Char (b % 16 * 4), '=']
  | a :: b :: c :: rest =>
    String.mk [b64Char (a / 4 % 64), b64Char (a % 4 * 16 + b / 16),
               b64Char (b % 16 * 4 + c / 64), b64Char (c % 64)] ++ b64encode rest

/-- The data URL attached for one batch image (app.py line 212). -/
def imageUrl (im : ImageInfo) : String :=
  "data:image/" ++ im.type ++ ";base64," ++ b64encode im.data

/-! ## The extraction request and service oracle (app.py lines 186-222) -/

/-- A service-level failure of the structured-extraction call (network, rate
limit, malformed-schema response); the `ServiceError` of the spec. -/
structure ServiceError where
  message : String
deriving DecidableEq

/-- The request sent to `client.beta.chat.completions.parse` (app.py lines
195-222): the model name, the system instruction, the user text (which embeds
the serialized prior result for later batches), the per-image data URLs in
batch order, and the token cap. -/
structure ChatRequest where
  model : String
  system_message : String
  user_text : String
  image_urls : List String
  max_tokens : Nat
deriving DecidableEq

/-- First-batch system message (app.py line 188). -/
def first_system_message : String :=
  "You are an expert aviation logbook auditor. Analyze the provided logbook images and extract information to fill out the aviation logbook audit template. DO NOT make up information - if you cannot find specific information in the images, leave those fields blank or use appropriate null values. It\x27s perfectly acceptable to leave fields empty until the information is found in the images."

/-- First-batch user message (app.py line 189). -/
def first_user_message : String :=
  "Please analyze these aviation logbook images and extract all available information to complete the logbook audit. Only include information that you can clearly see in the images. If information is not visible or unclear, leave those fields blank. Focus on accuracy over completeness."

/-- Subsequent-batch system message (app.py line 192). -/
def subsequent_system_message : String :=
  "You are an expert aviation logbook auditor. You have already analyzed some logbook images and created a partial audit report. Now analyze these additional images and UPDATE the existing audit report with any new information found. DO NOT make up information - only add information you can clearly see in the new images. Keep existing information unless you find conflicting data that is more accurate."

/-- Subsequent-batch user message (app.py line 193): the f-string embedding
`st.session_state.audit_results.model_dump_json()`. -/
def subsequent_user_message (prior : AviationLogbookAudit) : String :=
  "Here is the current audit report from previous images: " ++ model_dump_json prior ++ ". Now analyze these additional logbook images and update the audit report with any new information you can clearly see. Merge the information intelligently - add new inspections, components, ADs, etc. to the existing lists, and update fields that were previously empty if you now have the information."

/-- System-message selection (app.py lines 186-192): keyed on whether
`st.session_state.audit_results` is `None`. -/
def systemMessageFor (prior : Option AviationLogbookAudit) : String :=
  match prior with
  | none => first_system_message
  | some _ => subsequent_system_message

/-- User-message selection (app.py lines 186-193). -/
def userMessageFor (prior : Option AviationLogbookAudit) : String :=
  match prior with
  | none => first_user_message
  | some r => subsequent_user_message r

/-! ## The batch loop (app.py lines 163-236) -/

/-- `start_idx = batch_num * batch_size` with `batch_size = 5`
(app.py lines 164, 177). -/
def startIdx (batch_num : Nat) : Nat := batch_num * 5

/-- `end_idx = min(start_idx + batch_size, len(all_images))` (app.py line 178). -/
def endIdx (images : List ImageInfo) (batch_num : Nat) : Nat :=
  min (startIdx batch_num + 5) images.length

/-- `batch_images = all_images[start_idx:end_idx]` (app.py line 179). -/
def batchAt (images : List ImageInfo) (batch_num : Nat) : List ImageInfo :=
  (images.drop (startIdx batch_num)).take (endIdx images batch_num - startIdx batch_num)

/-- The request built for one batch (app.py lines 186-222). -/
def mkRequest (images : List ImageInfo) (batch_num : Nat)
    (prior : Option AviationLogbookAudit) : ChatRequest :=
  { model := "gpt-4o-2024-08-06"
    system_message := systemMessageFor prior
    user_text := userMessageFor prior
    image_urls := (batchAt images batch_num).map imageUrl
    max_tokens := 4000 }

/-- The interactive session state relevant to the loop (app.py lines 141-145):
`st.session_state.audit_results` and `st.session_state.processed_images`. -/
structure SessionState where
  audit_results : Option AviationLogbookAudit
  processed_images : Nat
deriving DecidableEq

deriving instance DecidableEq for Except

/-- One observed service invocation of the loop: the batch slice it sent, the
request it built, and either the session state after the updates of app.py
lines 224-226 or the uncaught `ServiceError`. -/
structure BatchEvent where
  batch_images : List ImageInfo
  request : ChatRequest
  outcome : Except ServiceError SessionState
deriving DecidableEq

/-- The `for batch_num in range(total_batches)` loop body (app.py lines
176-229), iterated over the remaining batch indices.  Returns the trace of
service invocations and either the final session state or the first
propagated `ServiceError` (the source has no try/except around the call at
line 217, so an error aborts the remaining iterations). -/
def runLoop (service : ChatRequest → Except ServiceError AviationLogbookAudit)
    (images : List ImageInfo) :
    List Nat → SessionState → List BatchEvent × Except ServiceError SessionState
  | [], s => ([], Except.ok s)
  | batch_num :: rest, s =>
    let batch_images := batchAt images batch_num
    let req := mkRequest images batch_num s.audit_results
    match service req with
    | Except.error e => ([⟨batch_images, req, Except.error e⟩], Except.error e)
    | Except.ok audit =>
      let s2 : SessionState := ⟨some audit, endIdx images batch_num⟩
      let out := runLoop service images rest s2
      (⟨batch_images, req, Except.ok s2⟩ :: out.1, out.2)

/-- The "Generate Logbook Audit Report" button handler (app.py lines
163-236): computes `total_batches = (len(all_images) + batch_size - 1) //
batch_size`, resets the session state (lines 172-173) regardless of the
incoming state `s0`, and runs every batch in order. -/
def generateReport (service : ChatRequest → Except ServiceError AviationLogbookAudit)
    (images : List ImageInfo) (_s0 : SessionState) :
    List BatchEvent × Except ServiceError SessionState :=
  let batch_size := 5
  let total_batches := (images.length + batch_size - 1) / batch_size
  let s1 : SessionState := { audit_results := none, processed_images := 0 }
  runLoop service images (List.range total_batches) s1

/-! ## Rendering (app.py lines 279-321) -/

/-- Python string truthiness on an optional string: `x or default` yields
`default` when `x` is `None` or the empty string. -/
def pyOr (x : Option String) (default : String) : String :=
  match x with
  | none => default
  | some s => if s = "" then default else s

/-- The "Status" column of the Logbook Condition table (app.py lines 283-289),
in row order. -/
def condition_status (lc : LogbookCondition) : List String :=
  [if lc.all_original_logs_present then "✅ Yes" else "❌ No",
   if lc.chronologically_organized then "✅ Yes" else "❌ No",
   if lc.legible_handwriting then "✅ Yes" else "❌ No",
   if lc.gaps_in_entries then "⚠️ Yes" else "✅ No",
   if lc.scanned_digital_copies_exist then "✅ Yes" else "❌ No"]

/-- The "Last Completed" column of the inspections table (app.py line 298):
`str(i.last_completed or "Not specified")`. -/
def inspection_last_completed_col (l : List InspectionEntry) : List String :=
  l.map (fun i => pyOr i.last_completed "Not specified")

/-- The "Next Due" column of the inspections table (app.py line 299). -/
def inspection_next_due_col (l : List InspectionEntry) : List String :=
  l.map (fun i => pyOr i.next_due "Not specified")

/-- The "Notes" column of the inspections table (app.py line 301):
`str(i.notes)`, with no placeholder fallback. -/
def inspection_notes_col (l : List InspectionEntry) : List String :=
  l.map (fun i => i.notes)

/-- The "Complied Date" column of the airworthiness-directives table
(app.py line 313). -/
def ad_complied_date_col (l : List ADEntry) : List String :=
  l.map (fun a => pyOr a.complied_date "Not specified")

/-- The "Method" column of the airworthiness-directives table
(app.py line 314). -/
def ad_method_col (l : List ADEntry) : List String :=
  l.map (fun a => pyOr a.method_of_compliance "Not specified")

/-- The "Notes" column of the airworthiness-directives table (app.py line
317): `str(ad.notes)`, with no placeholder fallback. -/
def ad_notes_col (l : List ADEntry) : List String :=
  l.map (fun a => a.notes)

/-! ## Demo inputs used by the witness theorems -/

/-- A concrete audit value, varying with `n`, for concrete service oracles. -/
def demoAudit (n : Nat) : AviationLogbookAudit :=
  ⟨⟨"Cessna 172", "N12345", "17280001", 1200, 1190, 1200, none, none, none, toString n⟩,
   ⟨true, true, true, false, true⟩, ⟨[]⟩, ⟨[]⟩, ⟨[]⟩,
   ⟨true, true, true, true, "GPS"⟩, ⟨true, true, true, true, true⟩,
   ⟨"", "", "", "", ""⟩⟩

/-- A concrete always-succeeding service oracle whose answer depends on the
request, so distinct calls can be told apart. -/
def demoService : ChatRequest → Except ServiceError AviationLogbookAudit :=
  fun r => Except.ok (demoAudit r.image_urls.length)

/-- A concrete always-failing service oracle. -/
def failService : ChatRequest → Except ServiceError AviationLogbookAudit :=
  fun _ => Except.error ⟨"rate limit"⟩

/-- A concrete list of `n` distinct images. -/
def demoImages (n : Nat) : List ImageInfo :=
  (List.range n).map (fun j => ⟨[j % 256], "png", "img" ++ toString j ++ ".png"⟩)

/-- A concrete rasterization oracle for the PDF witness. -/
def demoRasterize : PdfPage → Nat × Nat → List Nat :=
  fun p z => p ++ [z.1, z.2]

/-- A concrete two-page PDF for the PDF witness. -/
def demoPdf : PdfFile := ⟨"logbook.pdf", [[10], [20]]⟩

/-- A concrete inspection entry with empty notes and absent dates. -/
def demoInspection : InspectionEntry := ⟨"Annual", none, none, true, ""⟩

/-- A concrete airworthiness directive with empty notes and absent dates. -/
def demoAD : ADEntry := ⟨"AD-2020-01", "Cylinder check", none, none, true, none, ""⟩

/-- Default value used when indexing the event trace with `List.getD`. -/
def defaultEvent : BatchEvent :=
  ⟨[], mkRequest [] 0 none, Except.error ⟨""⟩⟩

/-- Default value used when indexing image lists with `List.getD`. -/
def defaultImage : ImageInfo := ⟨[], "", ""⟩

/-! ## Helper lemmas about the batch loop -/

theorem runLoop_cons_error (service : ChatRequest → Except ServiceError AviationLogbookAudit)
    (images : List ImageInfo) (n : Nat) (rest : List Nat) (s : SessionState)
    (e : ServiceError)
    (hq : service (mkRequest images n s.audit_results) = Except.error e) :
    runLoop service images (n :: rest) s
      = ([⟨batchAt images n, mkRequest images n s.audit_results, Except.error e⟩],
         Except.error e) := by
  simp only [runLoop, hq]

theorem runLoop_cons_ok (service : ChatRequest → Except ServiceError AviationLogbookAudit)
    (images : List ImageInfo) (n : Nat) (rest : List Nat) (s : SessionState)
    (a : AviationLogbookAudit)
    (hq : service (mkRequest images n s.audit_results) = Except.ok a) :
    runLoop service images (n :: rest) s
      = (⟨batchAt images n, mkRequest images n s.audit_results,
          Except.ok ⟨some a, endIdx images n⟩⟩ ::
            (runLoop service images rest ⟨some a, endIdx images n⟩).1,
         (runLoop service images rest ⟨some a, endIdx images n⟩).2) := by
  simp only [runLoop, hq]

theorem batchAt_length (images : List ImageInfo) (k : Nat) :
    (batchAt images k).length = endIdx images k - startIdx k := by
  simp only [batchAt, List.length_take, List.length_drop, endIdx, startIdx]
  omega

theorem batchAt_eq_slice (images : List ImageInfo) (k : Nat) :
    batchAt images k
      = (images.drop (5 * k)).take (min (5 * (k + 1)) images.length - 5 * k) := by
  simp only [batchAt, startIdx, endIdx]
  rw [Nat.mul_comm k 5]
  congr 1

theorem range_getD (n k : Nat) (h : k < n) : (List.range n).getD k 0 = k := by
  simp [List.getD_eq_getElem?_getD, List.getElem?_range h]


theorem runLoop_length_le (service : ChatRequest → Except ServiceError AviationLogbookAudit)
    (images : List ImageInfo) :
    ∀ (ns : List Nat) (s : SessionState),
      ((runLoop service images ns s).1).length ≤ ns.length
  | [], _ => by simp [runLoop]
  | n :: rest, s => by
    cases hq : service (mkRequest images n s.audit_results) with
    | error e =>
      rw [runLoop_cons_error service images n rest s e hq]
      simp
    | ok a =>
      rw [runLoop_cons_ok service images n rest s a hq]
      simpa using runLoop_length_le service images rest ⟨some a, endIdx images n⟩

theorem runLoop_length_ok (service : ChatRequest → Except ServiceError AviationLogbookAudit)
    (images : List ImageInfo) (hok : ∀ r, ∃ a, service r = Except.ok a) :
    ∀ (ns : List Nat) (s : SessionState),
      ((runLoop service images ns s).1).length = ns.length
  | [], _ => by simp [runLoop]
  | n :: rest, s => by
    obtain ⟨a, ha⟩ := hok (mkRequest images n s.audit_results)
    rw [runLoop_cons_ok service images n rest s a ha]
    simpa using runLoop_length_ok service images hok rest ⟨some a, endIdx images n⟩

theorem runLoop_pos (service : ChatRequest → Except ServiceError AviationLogbookAudit)
    (images : List ImageInfo) (n : Nat) (rest : List Nat) (s : SessionState) :
    0 < ((runLoop service images (n :: rest) s).1).length := by
  cases hq : service (mkRequest images n s.audit_results) with
  | error e => rw [runLoop_cons_error service images n rest s e hq]; simp
  | ok a => rw [runLoop_cons_ok service images n rest s a hq]; simp

theorem runLoop_get_batch (service : ChatRequest → Except ServiceError AviationLogbookAudit)
    (images : List ImageInfo) :
    ∀ (ns : List Nat) (s : SessionState) (k : Nat),
      k < ((runLoop service images ns s).1).length →
      (((runLoop service images ns s).1).getD k defaultEvent).batch_images
        = batchAt images (ns.getD k 0)
  | [], s, k => by simp [runLoop]
  | n :: rest, s, k => by
    intro h
    cases hq : service (mkRequest images n s.audit_results) with
    | error e =>
      rw [runLoop_cons_error service images n rest s e hq] at h ⊢
      have hk : k = 0 := by
        simp only [List.length_singleton] at h
        omega
      subst hk
      rfl
    | ok a =>
      rw [runLoop_cons_ok service images n rest s a hq] at h ⊢
      cases k with
      | zero => rfl
      | succ k =>
        have h2 : k < ((runLoop service images rest ⟨some a, endIdx images n⟩).1).length := by
          simpa using h
        simpa using runLoop_get_batch service images rest ⟨some a, endIdx images n⟩ k h2

theorem runLoop_get0_request (service : ChatRequest → Except ServiceError AviationLogbookAudit)
    (images : List ImageInfo) (ns : List Nat) (s : SessionState)
    (h : 0 < ((runLoop service images ns s).1).length) :
    (((runLoop service images ns s).1).getD 0 defaultEvent).request
      = mkRequest images (ns.getD 0 0) s.audit_results := by
  cases ns with
  | nil => simp [runLoop] at h
  | cons n rest =>
    cases hq : service (mkRequest images n s.audit_results) with
    | error e => rw [runLoop_cons_error service images n rest s e hq]; rfl
    | ok a => rw [runLoop_cons_ok service images n rest s a hq]; rfl

theorem runLoop_outcome_ok (service : ChatRequest → Except ServiceError AviationLogbookAudit)
    (images : List ImageInfo) (hok : ∀ r, ∃ a, service r = Except.ok a) :
    ∀ (ns : List Nat) (s : SessionState) (k : Nat),
      k < ((runLoop service images ns s).1).length →
      ∃ a : AviationLogbookAudit,
        service ((((runLoop service images ns s).1).getD k defaultEvent).request)
            = Except.ok a ∧
        (((runLoop service images ns s).1).getD k defaultEvent).outcome
          = Except.ok ⟨some a, endIdx images (ns.getD k 0)⟩
  | [], s, k => by simp [runLoop]
  | n :: rest, s, k => by
    intro h
    obtain ⟨a, ha⟩ := hok (mkRequest images n s.audit_results)
    rw [runLoop_cons_ok service images n rest s a ha] at h ⊢
    cases k with
    | zero => exact ⟨a, by simpa using ha, rfl⟩
    | succ k =>
      have h2 : k < ((runLoop service images rest ⟨some a, endIdx images n⟩).1).length := by
        simpa using h
      obtain ⟨b, hb1, hb2⟩ :=
        runLoop_outcome_ok service images hok rest ⟨some a, endIdx images n⟩ k h2
      exact ⟨b, by simpa using hb1, by simpa using hb2⟩

theorem runLoop_chain (service : ChatRequest → Except ServiceError AviationLogbookAudit)
    (images : List ImageInfo) :
    ∀ (ns : List Nat) (s : SessionState) (k : Nat),
      k + 1 < ((runLoop service images ns s).1).length →
      ∃ a : AviationLogbookAudit,
        service ((((runLoop service images ns s).1).getD k defaultEvent).request)
            = Except.ok a ∧
        (((runLoop service images ns s).1).getD k defaultEvent).outcome
            = Except.ok ⟨some a, endIdx images (ns.getD k 0)⟩ ∧
        (((runLoop service images ns s).1).getD (k + 1) defaultEvent).request
            = mkRequest images (ns.getD (k + 1) 0) (some a)
  | [], s, k => by simp [runLoop]
  | n :: rest, s, k => by
    intro h
    cases hq : service (mkRequest images n s.audit_results) with
    | error e =>
      rw [runLoop_cons_error service images n rest s e hq] at h
      simp only [List.length_singleton] at h
      omega
    | ok a =>
      rw [runLoop_cons_ok service images n rest s a hq] at h ⊢
      cases k with
      | zero =>
        have h2 : 0 < ((runLoop service images rest ⟨some a, endIdx images n⟩).1).length := by
          simpa using h
        have hreq := runLoop_get0_request service images rest ⟨some a, endIdx images n⟩ h2
        exact ⟨a, by simpa using hq, rfl, by simpa using hreq⟩
      | succ k =>
        have h2 : k + 1 < ((runLoop service images rest ⟨some a, endIdx images n⟩).1).length := by
          simpa using h
        obtain ⟨b, hb1, hb2, hb3⟩ :=
          runLoop_chain service images rest ⟨some a, endIdx images n⟩ k h2
        exact ⟨b, by simpa using hb1, by simpa using hb2, by simpa using hb3⟩

theorem runLoop_error_last (service : ChatRequest → Except ServiceError AviationLogbookAudit)
    (images : List ImageInfo) :
    ∀ (ns : List Nat) (s : SessionState) (k : Nat) (e : ServiceError),
      k < ((runLoop service images ns s).1).length →
      (((runLoop service images ns s).1).getD k defaultEvent).outcome = Except.error e →
      k + 1 = ((runLoop service images ns s).1).length ∧
      (runLoop service images ns s).2 = Except.error e
  | [], s, k, e => by simp [runLoop]
  | n :: rest, s, k, e => by
    intro h herr
    cases hq : service (mkRequest images n s.audit_results) with
    | error e2 =>
      rw [runLoop_cons_error service images n rest s e2 hq] at h herr ⊢
      have hk : k = 0 := by
        simp only [List.length_singleton] at h
        omega
      subst hk
      simp only [List.getD_cons_zero] at herr
      have he : e2 = e := by simpa using herr
      subst he
      exact ⟨rfl, rfl⟩
    | ok a =>
      rw [runLoop_cons_ok service images n rest s a hq] at h herr ⊢
      cases k with
      | zero => simp at herr
      | succ k =>
        have h2 : k < ((runLoop service images rest ⟨some a, endIdx images n⟩).1).length := by
          simpa using h
        have herr2 : (((runLoop service images rest ⟨some a, endIdx images n⟩).1).getD
            k defaultEvent).outcome = Except.error e := by
          simpa using herr
        obtain ⟨hlen, hsnd⟩ :=
          runLoop_error_last service images rest ⟨some a, endIdx images n⟩ k e h2 herr2
        refine ⟨?_, by simpa using hsnd⟩
        simpa using congrArg Nat.succ hlen

theorem runLoop_snd_last (service : ChatRequest → Except ServiceError AviationLogbookAudit)
    (images : List ImageInfo) :
    ∀ (ns : List Nat) (s : SessionState),
      0 < ((runLoop service images ns s).1).length →
      (runLoop service images ns s).2
        = (((runLoop service images ns s).1).getD
            (((runLoop service images ns s).1).length - 1) defaultEvent).outcome
  | [], s => by simp [runLoop]
  | n :: rest, s => by
    intro h
    cases hq : service (mkRequest images n s.audit_results) with
    | error e =>
      rw [runLoop_cons_error service images n rest s e hq]
      rfl
    | ok a =>
      cases rest with
      | nil =>
        rw [runLoop_cons_ok service images n [] s a hq]
        simp [runLoop]
      | cons m rest2 =>
        have hpos := runLoop_pos service images m rest2 ⟨some a, endIdx images n⟩
        have ih := runLoop_snd_last service images (m :: rest2) ⟨some a, endIdx images n⟩ hpos
        rw [runLoop_cons_ok service images n (m :: rest2) s a hq]
        simp only [List.length_cons]
        have hidx : ((runLoop service images (m :: rest2)
            ⟨some a, endIdx images n⟩).1).length + 1 - 1
            = (((runLoop service images (m :: rest2)
                ⟨some a, endIdx images n⟩).1).length - 1) + 1 := by
          omega
        rw [hidx]
        simpa using ih

/-! ## Claim theorems -/

/-- C1: for every non-empty image list of length L processed with batch size
5 and an always-succeeding service, the extraction loop issues exactly
ceil(L/5) batches; the k-th issued batch (0-based) is the contiguous slice
`all_images[5*k : min(5*(k+1), L)]`; every batch except the last has size 5;
the last batch has size `L mod 5` (or 5 when `L mod 5 = 0`); batches are
issued strictly in input order (the k-th service invocation of the trace
carries the k-th slice). -/
theorem C1_batch_partition
    (service : ChatRequest → Except ServiceError AviationLogbookAudit)
    (images : List ImageInfo) (s0 : SessionState)
    (hok : ∀ r, ∃ a, service r = Except.ok a)
    (hne : images ≠ []) :
    ((generateReport service images s0).1).length = (images.length + 5 - 1) / 5 ∧
    (5 * (((generateReport service images s0).1).length - 1) < images.length ∧
      images.length ≤ 5 * ((generateReport service images s0).1).length) ∧
    (∀ k, k < ((generateReport service images s0).1).length →
      (((generateReport service images s0).1).getD k defaultEvent).batch_images
        = (images.drop (5 * k)).take (min (5 * (k + 1)) images.length - 5 * k)) ∧
    (∀ k, k + 1 < ((generateReport service images s0).1).length →
      (((generateReport service images s0).1).getD k defaultEvent).batch_images.length = 5) ∧
    (((generateReport service images s0).1).getD
        (((generateReport service images s0).1).length - 1) defaultEvent).batch_images.length
      = if images.length % 5 = 0 then 5 else images.length % 5 := by
  have hL : 0 < images.length := List.length_pos.mpr hne
  simp only [generateReport]
  have hlen : ((runLoop service images
      (List.range ((images.length + 5 - 1) / 5)) ⟨none, 0⟩).1).length
      = (images.length + 5 - 1) / 5 := by
    rw [runLoop_length_ok service images hok]
    simp
  have hbatch : ∀ k, k < ((runLoop service images
      (List.range ((images.length + 5 - 1) / 5)) ⟨none, 0⟩).1).length →
      (((runLoop service images (List.range ((images.length + 5 - 1) / 5))
          ⟨none, 0⟩).1).getD k defaultEvent).batch_images = batchAt images k := by
    intro k hk
    rw [runLoop_get_batch service images _ _ k hk, range_getD]
    omega
  refine ⟨hlen, by rw [hlen]; omega, ?_, ?_, ?_⟩
  · intro k hk
    rw [hbatch k hk, batchAt_eq_slice]
  · intro k hk
    rw [hbatch k (Nat.lt_of_succ_lt hk), batchAt_length]
    simp only [endIdx, startIdx]
    rw [hlen] at hk
    omega
  · have hpos : 0 < ((runLoop service images
        (List.range ((images.length + 5 - 1) / 5)) ⟨none, 0⟩).1).length := by
      rw [hlen]; omega
    rw [hbatch _ (Nat.sub_lt hpos Nat.one_pos), batchAt_length]
    simp only [endIdx, startIdx]
    rw [hlen]
    split <;> omega

/-- C1 witness: the theorem applied to 7 concrete images and a concrete
always-succeeding service oracle. -/
theorem C1_batch_partition_witness :
    (∀ r, ∃ a, demoService r = Except.ok a) ∧ demoImages 7 ≠ [] ∧
    (((generateReport demoService (demoImages 7) ⟨none, 0⟩).1).length
        = ((demoImages 7).length + 5 - 1) / 5 ∧
    (5 * (((generateReport demoService (demoImages 7) ⟨none, 0⟩).1).length - 1)
        < (demoImages 7).length ∧
      (demoImages 7).length
        ≤ 5 * ((generateReport demoService (demoImages 7) ⟨none, 0⟩).1).length) ∧
    (∀ k, k < ((generateReport demoService (demoImages 7) ⟨none, 0⟩).1).length →
      (((generateReport demoService (demoImages 7) ⟨none, 0⟩).1).getD k defaultEvent).batch_images
        = ((demoImages 7).drop (5 * k)).take
            (min (5 * (k + 1)) (demoImages 7).length - 5 * k)) ∧
    (∀ k, k + 1 < ((generateReport demoService (demoImages 7) ⟨none, 0⟩).1).length →
      (((generateReport demoService (demoImages 7) ⟨none, 0⟩).1).getD
          k defaultEvent).batch_images.length = 5) ∧
    (((generateReport demoService (demoImages 7) ⟨none, 0⟩).1).getD
        (((generateReport demoService (demoImages 7) ⟨none, 0⟩).1).length - 1)
        defaultEvent).batch_images.length
      = if (demoImages 7).length % 5 = 0 then 5 else (demoImages 7).length % 5) :=
  ⟨fun r => ⟨demoAudit r.image_urls.length, rfl⟩, by decide,
   C1_batch_partition demoService (demoImages 7) ⟨none, 0⟩
     (fun r => ⟨demoAudit r.image_urls.length, rfl⟩) (by decide)⟩

/-- C2: whenever batch k+1 exists in the trace, batch k succeeded with some
result `a`; the session state after batch k holds `a`; and batch k+1's
request carries the subsequent-batch system instruction (update/merge, not
from scratch) and a user message embedding `model_dump_json a` — so the
result of each batch becomes the prior context of the next. -/
theorem C2_prior_result_threading
    (service : ChatRequest → Except ServiceError AviationLogbookAudit)
    (images : List ImageInfo) (s0 : SessionState) (k : Nat)
    (h : k + 1 < ((generateReport service images s0).1).length) :
    ∃ a : AviationLogbookAudit,
      service ((((generateReport service images s0).1).getD k defaultEvent).request)
          = Except.ok a ∧
      (((generateReport service images s0).1).getD k defaultEvent).outcome
          = Except.ok ⟨some a, endIdx images k⟩ ∧
      (((generateReport service images s0).1).getD (k + 1) defaultEvent).request
          = mkRequest images (k + 1) (some a) ∧
      (((generateReport service images s0).1).getD (k + 1) defaultEvent).request.system_message
          = subsequent_system_message ∧
      (((generateReport service images s0).1).getD (k + 1) defaultEvent).request.user_text
          = "Here is the current audit report from previous images: "
            ++ model_dump_json a
            ++ ". Now analyze these additional logbook images and update the audit report with any new information you can clearly see. Merge the information intelligently - add new inspections, components, ADs, etc. to the existing lists, and update fields that were previously empty if you now have the information." := by
  simp only [generateReport] at h ⊢
  obtain ⟨a, ha1, ha2, ha3⟩ := runLoop_chain service images _ _ k h
  have hk1 : k + 1 < (images.length + 5 - 1) / 5 := by
    have hle := runLoop_length_le service images
      (List.range ((images.length + 5 - 1) / 5)) ⟨none, 0⟩
    simp only [List.length_range] at hle
    omega
  rw [range_getD _ _ (by omega)] at ha2
  rw [range_getD _ _ hk1] at ha3
  exact ⟨a, ha1, ha2, ha3, by rw [ha3]; rfl, by rw [ha3]; rfl⟩

/-- C2 witness: the theorem applied to 12 concrete images, a concrete service
oracle, and k = 1: batch 2's request embeds the serialized result of batch 2's
predecessor. -/
theorem C2_prior_result_threading_witness :
    1 + 1 < ((generateReport demoService (demoImages 12) ⟨none, 0⟩).1).length ∧
    ∃ a : AviationLogbookAudit,
      demoService ((((generateReport demoService (demoImages 12) ⟨none, 0⟩).1).getD
          1 defaultEvent).request) = Except.ok a ∧
      (((generateReport demoService (demoImages 12) ⟨none, 0⟩).1).getD 1 defaultEvent).outcome
          = Except.ok ⟨some a, endIdx (demoImages 12) 1⟩ ∧
      (((generateReport demoService (demoImages 12) ⟨none, 0⟩).1).getD 2 defaultEvent).request
          = mkRequest (demoImages 12) 2 (some a) ∧
      (((generateReport demoService (demoImages 12) ⟨none, 0⟩).1).getD
          2 defaultEvent).request.system_message = subsequent_system_message ∧
      (((generateReport demoService (demoImages 12) ⟨none, 0⟩).1).getD
          2 defaultEvent).request.user_text
          = "Here is the current audit report from previous images: "
            ++ model_dump_json a
            ++ ". Now analyze these additional logbook images and update the audit report with any new information you can clearly see. Merge the information intelligently - add new inspections, components, ADs, etc. to the existing lists, and update fields that were previously empty if you now have the information." :=
  ⟨by decide, C2_prior_result_threading demoService (demoImages 12) ⟨none, 0⟩ 1 (by decide)⟩

/-- C3: a run over exactly 12 images with an always-succeeding service issues
exactly 3 service invocations with batch sizes [5, 5, 2] in that order, and
the final stored result (the value displayed after the run) is the parsed
output of the 3rd invocation, with all 12 images counted as processed. -/
theorem C3_twelve_image_run
    (service : ChatRequest → Except ServiceError AviationLogbookAudit)
    (images : List ImageInfo) (s0 : SessionState)
    (hok : ∀ r, ∃ a, service r = Except.ok a)
    (h12 : images.length = 12) :
    ((generateReport service images s0).1).length = 3 ∧
    (∀ k, k < 3 →
      (((generateReport service images s0).1).getD k defaultEvent).batch_images.length
        = [5, 5, 2].getD k 0) ∧
    ∃ a : AviationLogbookAudit,
      service ((((generateReport service images s0).1).getD 2 defaultEvent).request)
          = Except.ok a ∧
      (generateReport service images s0).2 = Except.ok ⟨some a, 12⟩ := by
  simp only [generateReport, h12]
  have h3 : (12 + 5 - 1) / 5 = 3 := by norm_num
  rw [h3]
  have hlen : ((runLoop service images (List.range 3) ⟨none, 0⟩).1).length = 3 := by
    rw [runLoop_length_ok service images hok]
    simp
  refine ⟨hlen, ?_, ?_⟩
  · intro k hk
    rw [runLoop_get_batch service images (List.range 3) ⟨none, 0⟩ k (by omega),
      range_getD 3 k (by omega), batchAt_length]
    simp only [endIdx, startIdx, h12]
    interval_cases k <;> simp
  · obtain ⟨a, ha1, ha2⟩ :=
      runLoop_outcome_ok service images hok (List.range 3) ⟨none, 0⟩ 2 (by omega)
    refine ⟨a, ha1, ?_⟩
    have hsnd := runLoop_snd_last service images (List.range 3) ⟨none, 0⟩ (by omega)
    rw [hsnd, hlen]
    rw [range_getD 3 2 (by norm_num)] at ha2
    have hend : endIdx images 2 = 12 := by
      simp only [endIdx, startIdx, h12]
      omega
    rw [show (3 : Nat) - 1 = 2 from rfl, ha2, hend]

/-- C3 witness: the theorem applied to 12 concrete images and a concrete
always-succeeding service oracle. -/
theorem C3_twelve_image_run_witness :
    (∀ r, ∃ a, demoService r = Except.ok a) ∧ (demoImages 12).length = 12 ∧
    (((generateReport demoService (demoImages 12) ⟨none, 0⟩).1).length = 3 ∧
    (∀ k, k < 3 →
      (((generateReport demoService (demoImages 12) ⟨none, 0⟩).1).getD
          k defaultEvent).batch_images.length = [5, 5, 2].getD k 0) ∧
    ∃ a : AviationLogbookAudit,
      demoService ((((generateReport demoService (demoImages 12) ⟨none, 0⟩).1).getD
          2 defaultEvent).request) = Except.ok a ∧
      (generateReport demoService (demoImages 12) ⟨none, 0⟩).2 = Except.ok ⟨some a, 12⟩) :=
  ⟨fun r => ⟨demoAudit r.image_urls.length, rfl⟩, by decide,
   C3_twelve_image_run demoService (demoImages 12) ⟨none, 0⟩
     (fun r => ⟨demoAudit r.image_urls.length, rfl⟩) (by decide)⟩

/-- C4: a run whose image list has between 1 and 5 images is a single-batch
run: the service is invoked exactly once (for any service oracle, succeeding
or not), and that sole request carries the from-scratch system and user
instructions with no serialized prior result — its image payloads are exactly
the whole input list. -/
theorem C4_single_batch_run
    (service : ChatRequest → Except ServiceError AviationLogbookAudit)
    (images : List ImageInfo) (s0 : SessionState)
    (hne : images ≠ []) (hle : images.length ≤ 5) :
    ((generateReport service images s0).1).length = 1 ∧
    (((generateReport service images s0).1).getD 0 defaultEvent).request
      = { model := "gpt-4o-2024-08-06", system_message := first_system_message,
          user_text := first_user_message, image_urls := images.map imageUrl,
          max_tokens := 4000 } := by
  have hL : 0 < images.length := List.length_pos.mpr hne
  have htot : (images.length + 5 - 1) / 5 = 1 := by omega
  simp only [generateReport, htot]
  rw [(by decide : List.range 1 = [0])]
  have hpos := runLoop_pos service images 0 [] ⟨none, 0⟩
  have hle1 := runLoop_length_le service images [0] ⟨none, 0⟩
  simp only [List.length_singleton] at hle1
  have hbatch : batchAt images 0 = images := by
    simp only [batchAt, startIdx, endIdx, Nat.zero_mul, Nat.zero_add, List.drop_zero,
      Nat.sub_zero]
    rw [Nat.min_eq_right hle]
    exact List.take_length images
  refine ⟨by omega, ?_⟩
  rw [runLoop_get0_request service images [0] ⟨none, 0⟩ hpos]
  simp only [List.getD_cons_zero, mkRequest, systemMessageFor, userMessageFor, hbatch]

/-- C4 witness: the theorem applied to 3 concrete images and a concrete
always-failing service oracle (the request is built before the call, so the
from-scratch request is observable even then). -/
theorem C4_single_batch_run_witness :
    demoImages 3 ≠ [] ∧ (demoImages 3).length ≤ 5 ∧
    (((generateReport failService (demoImages 3) ⟨none, 0⟩).1).length = 1 ∧
    (((generateReport failService (demoImages 3) ⟨none, 0⟩).1).getD 0 defaultEvent).request
      = { model := "gpt-4o-2024-08-06", system_message := first_system_message,
          user_text := first_user_message, image_urls := (demoImages 3).map imageUrl,
          max_tokens := 4000 }) :=
  ⟨by decide, by decide,
   C4_single_batch_run failService (demoImages 3) ⟨none, 0⟩ (by decide) (by decide)⟩

/-- C5: if the service call of any batch fails with a `ServiceError`, the
loop does not catch it: the run's outcome is that error (it carries no
`AviationLogbookAudit`, so the run's output retains nothing from earlier
batches), and the failing batch is the last service invocation — no further
batch is attempted. -/
theorem C5_service_error_propagates
    (service : ChatRequest → Except ServiceError AviationLogbookAudit)
    (images : List ImageInfo) (s0 : SessionState) (k : Nat) (e : ServiceError)
    (h : k < ((generateReport service images s0).1).length)
    (herr : (((generateReport service images s0).1).getD k defaultEvent).outcome
        = Except.error e) :
    (generateReport service images s0).2 = Except.error e ∧
    ((generateReport service images s0).1).length = k + 1 := by
  simp only [generateReport] at h herr ⊢
  obtain ⟨hlen, hsnd⟩ := runLoop_error_last service images _ _ k e h herr
  exact ⟨hsnd, hlen.symm⟩

/-- C5 witness: the theorem applied to 12 concrete images and a service that
fails immediately: the run aborts after the first invocation with the error. -/
theorem C5_service_error_propagates_witness :
    0 < ((generateReport failService (demoImages 12) ⟨none, 0⟩).1).length ∧
    (((generateReport failService (demoImages 12) ⟨none, 0⟩).1).getD 0 defaultEvent).outcome
        = Except.error ⟨"rate limit"⟩ ∧
    ((generateReport failService (demoImages 12) ⟨none, 0⟩).2
        = Except.error ⟨"rate limit"⟩ ∧
      ((generateReport failService (demoImages 12) ⟨none, 0⟩).1).length = 0 + 1) :=
  ⟨by decide, by decide,
   C5_service_error_propagates failService (demoImages 12) ⟨none, 0⟩ 0 ⟨"rate limit"⟩
     (by decide) (by decide)⟩

/-- C9: the button handler resets the accumulated result and the processed
counter before any batch runs: the whole run is independent of the incoming
session state, and the first request always carries the from-scratch system
and user instructions (prior = none), even when `s0` still holds a previous
run's result. -/
theorem C9_reset_on_generate
    (service : ChatRequest → Except ServiceError AviationLogbookAudit)
    (images : List ImageInfo) (s0 : SessionState) (hne : images ≠ []) :
    generateReport service images s0 = generateReport service images ⟨none, 0⟩ ∧
    0 < ((generateReport service images s0).1).length ∧
    (((generateReport service images s0).1).getD 0 defaultEvent).request
        = mkRequest images 0 none ∧
    (((generateReport service images s0).1).getD 0 defaultEvent).request.system_message
        = first_system_message ∧
    (((generateReport service images s0).1).getD 0 defaultEvent).request.user_text
        = first_user_message := by
  have hL : 0 < images.length := List.length_pos.mpr hne
  have htot : 0 < (images.length + 5 - 1) / 5 := by omega
  obtain ⟨t, ht⟩ := Nat.exists_eq_succ_of_ne_zero (Nat.pos_iff_ne_zero.mp htot)
  refine ⟨rfl, ?_, ?_, ?_, ?_⟩ <;> simp only [generateReport, ht]
  · rw [List.range_succ_eq_map]
    exact runLoop_pos service images 0 _ ⟨none, 0⟩
  · rw [List.range_succ_eq_map]
    rw [runLoop_get0_request service images _ ⟨none, 0⟩
      (runLoop_pos service images 0 _ ⟨none, 0⟩)]
    rfl
  · rw [List.range_succ_eq_map]
    rw [runLoop_get0_request service images _ ⟨none, 0⟩
      (runLoop_pos service images 0 _ ⟨none, 0⟩)]
    rfl
  · rw [List.range_succ_eq_map]
    rw [runLoop_get0_request service images _ ⟨none, 0⟩
      (runLoop_pos service images 0 _ ⟨none, 0⟩)]
    rfl

/-- C9 witness: the theorem applied with a stale session state holding a
previous result and a nonzero counter: the first request is still the
from-scratch one. -/
theorem C9_reset_on_generate_witness :
    demoImages 7 ≠ [] ∧
    (generateReport demoService (demoImages 7) ⟨some (demoAudit 99), 7⟩
        = generateReport demoService (demoImages 7) ⟨none, 0⟩ ∧
    0 < ((generateReport demoService (demoImages 7) ⟨some (demoAudit 99), 7⟩).1).length ∧
    (((generateReport demoService (demoImages 7)
        ⟨some (demoAudit 99), 7⟩).1).getD 0 defaultEvent).request
        = mkRequest (demoImages 7) 0 none ∧
    (((generateReport demoService (demoImages 7)
        ⟨some (demoAudit 99), 7⟩).1).getD 0 defaultEvent).request.system_message
        = first_system_message ∧
    (((generateReport demoService (demoImages 7)
        ⟨some (demoAudit 99), 7⟩).1).getD 0 defaultEvent).request.user_text
        = first_user_message) :=
  ⟨by decide,
   C9_reset_on_generate demoService (demoImages 7) ⟨some (demoAudit 99), 7⟩ (by decide)⟩

/-- C10: with an always-succeeding service, the session state recorded after
batch k (0-based) counts exactly `min(5*(k+1), L)` processed images; that
count strictly increases from batch to batch; and after the last batch it
equals L exactly. -/
theorem C10_processed_counter
    (service : ChatRequest → Except ServiceError AviationLogbookAudit)
    (images : List ImageInfo) (s0 : SessionState)
    (hok : ∀ r, ∃ a, service r = Except.ok a)
    (hne : images ≠ []) :
    (∀ k, k < ((generateReport service images s0).1).length →
      ∃ st : SessionState,
        (((generateReport service images s0).1).getD k defaultEvent).outcome
            = Except.ok st ∧
        st.processed_images = min (5 * (k + 1)) images.length) ∧
    (∀ k, k + 1 < ((generateReport service images s0).1).length →
      min (5 * (k + 1)) images.length < min (5 * (k + 2)) images.length) ∧
    (∃ st : SessionState,
      (((generateReport service images s0).1).getD
          (((generateReport service images s0).1).length - 1) defaultEvent).outcome
          = Except.ok st ∧
      st.processed_images = images.length) := by
  have hL : 0 < images.length := List.length_pos.mpr hne
  simp only [generateReport]
  have hlen : ((runLoop service images
      (List.range ((images.length + 5 - 1) / 5)) ⟨none, 0⟩).1).length
      = (images.length + 5 - 1) / 5 := by
    rw [runLoop_length_ok service images hok]
    simp
  refine ⟨?_, ?_, ?_⟩
  · intro k hk
    obtain ⟨a, _, ha2⟩ := runLoop_outcome_ok service images hok
      (List.range ((images.length + 5 - 1) / 5)) ⟨none, 0⟩ k hk
    rw [range_getD _ _ (by omega)] at ha2
    refine ⟨⟨some a, endIdx images k⟩, ha2, ?_⟩
    simp only [endIdx, startIdx]
    omega
  · intro k hk
    rw [hlen] at hk
    omega
  · obtain ⟨a, _, ha2⟩ := runLoop_outcome_ok service images hok
      (List.range ((images.length + 5 - 1) / 5)) ⟨none, 0⟩
      (((runLoop service images (List.range ((images.length + 5 - 1) / 5))
          ⟨none, 0⟩).1).length - 1) (by omega)
    rw [range_getD _ _ (by omega)] at ha2
    refine ⟨⟨some a, endIdx images (((runLoop service images
        (List.range ((images.length + 5 - 1) / 5)) ⟨none, 0⟩).1).length - 1)⟩, ha2, ?_⟩
    simp only [endIdx, startIdx]
    rw [hlen]
    omega

/-- C10 witness: the theorem applied to 12 concrete images and a concrete
always-succeeding service oracle. -/
theorem C10_processed_counter_witness :
    (∀ r, ∃ a, demoService r = Except.ok a) ∧ demoImages 12 ≠ [] ∧
    ((∀ k, k < ((generateReport demoService (demoImages 12) ⟨none, 0⟩).1).length →
      ∃ st : SessionState,
        (((generateReport demoService (demoImages 12) ⟨none, 0⟩).1).getD
            k defaultEvent).outcome = Except.ok st ∧
        st.processed_images = min (5 * (k + 1)) (demoImages 12).length) ∧
    (∀ k, k + 1 < ((generateReport demoService (demoImages 12) ⟨none, 0⟩).1).length →
      min (5 * (k + 1)) (demoImages 12).length
        < min (5 * (k + 2)) (demoImages 12).length) ∧
    (∃ st : SessionState,
      (((generateReport demoService (demoImages 12) ⟨none, 0⟩).1).getD
          (((generateReport demoService (demoImages 12) ⟨none, 0⟩).1).length - 1)
          defaultEvent).outcome = Except.ok st ∧
      st.processed_images = (demoImages 12).length)) :=
  ⟨fun r => ⟨demoAudit r.image_urls.length, rfl⟩, by decide,
   C10_processed_counter demoService (demoImages 12) ⟨none, 0⟩
     (fun r => ⟨demoAudit r.image_urls.length, rfl⟩) (by decide)⟩

/-- C6: in the Logbook Condition table, the `gaps_in_entries` row (index 3)
renders `true` as the warning-flagged "⚠️ Yes" and `false` as the affirmative
"✅ No", while every other row renders `true` as "✅ Yes" and `false` as
"❌ No" — the polarity of the gaps row is inverted relative to the rest. -/
theorem C6_gaps_polarity (lc : LogbookCondition) :
    (condition_status lc).getD 3 ""
        = (if lc.gaps_in_entries then "⚠️ Yes" else "✅ No") ∧
    (∀ j, j < 5 → j ≠ 3 →
      (condition_status lc).getD j ""
        = (if [lc.all_original_logs_present, lc.chronologically_organized,
               lc.legible_handwriting, lc.gaps_in_entries,
               lc.scanned_digital_copies_exist].getD j false
           then "✅ Yes" else "❌ No")) := by
  obtain ⟨a, b, c, d, e⟩ := lc
  refine ⟨rfl, ?_⟩
  intro j hj hj3
  interval_cases j
  · rfl
  · rfl
  · rfl
  · exact absurd rfl hj3
  · rfl

/-- C6 witness: the theorem applied to a concrete condition record with
`gaps_in_entries = true` and another with `gaps_in_entries = false`. -/
theorem C6_gaps_polarity_witness :
    ((condition_status ⟨true, false, true, true, false⟩).getD 3 ""
        = (if true then "⚠️ Yes" else "✅ No") ∧
      (∀ j, j < 5 → j ≠ 3 →
        (condition_status ⟨true, false, true, true, false⟩).getD j ""
          = (if [true, false, true, true, false].getD j false
             then "✅ Yes" else "❌ No"))) ∧
    (condition_status ⟨true, false, true, false, false⟩).getD 3 "" = "✅ No" :=
  ⟨C6_gaps_polarity ⟨true, false, true, true, false⟩, by decide⟩

/-- C7 counterexample: the claim "an empty Notes field renders as the literal
placeholder `Not specified`" is false on the code: an inspection entry and a
directive entry whose `notes` value is empty render an empty Notes cell
(`str(i.notes)` has no fallback), not "Not specified". -/
theorem C7_counterexample :
    inspection_notes_col [demoInspection] = [""] ∧
    inspection_notes_col [demoInspection] ≠ ["Not specified"] ∧
    ad_notes_col [demoAD] = [""] ∧
    ad_notes_col [demoAD] ≠ ["Not specified"] := by
  refine ⟨rfl, ?_, rfl, ?_⟩ <;> decide

/-- C7 (amended): the optional date/method columns (`last_completed`,
`next_due`, `complied_date`, `method_of_compliance`) render "Not specified"
when the value is absent (or empty, by Python truthiness of `or`), whereas
the required `notes` field is rendered verbatim, so an empty notes value
yields an empty cell rather than a placeholder. -/
theorem C7_notes_verbatim (i : InspectionEntry) (a : ADEntry) :
    inspection_notes_col [i] = [i.notes] ∧
    ad_notes_col [a] = [a.notes] ∧
    (i.last_completed = none → inspection_last_completed_col [i] = ["Not specified"]) ∧
    (i.last_completed = some "" → inspection_last_completed_col [i] = ["Not specified"]) ∧
    (i.next_due = none → inspection_next_due_col [i] = ["Not specified"]) ∧
    (a.complied_date = none → ad_complied_date_col [a] = ["Not specified"]) ∧
    (a.method_of_compliance = none → ad_method_col [a] = ["Not specified"]) := by
  refine ⟨rfl, rfl, ?_, ?_, ?_, ?_, ?_⟩ <;> intro h <;>
    simp [inspection_last_completed_col, inspection_next_due_col, ad_complied_date_col,
      ad_method_col, pyOr, h]

/-- C7 witness: the amended theorem applied to concrete entries with absent
optional fields and empty notes. -/
theorem C7_notes_verbatim_witness :
    demoInspection.last_completed = none ∧ demoAD.complied_date = none ∧
    (inspection_notes_col [demoInspection] = [demoInspection.notes] ∧
      inspection_last_completed_col [demoInspection] = ["Not specified"] ∧
      ad_complied_date_col [demoAD] = ["Not specified"]) :=
  ⟨rfl, rfl,
   (C7_notes_verbatim demoInspection demoAD).1,
   (C7_notes_verbatim demoInspection demoAD).2.2.1 rfl,
   (C7_notes_verbatim demoInspection demoAD).2.2.2.2.2.1 rfl⟩

/-- C8: for every uploaded PDF with P pages, `pdf_to_images` produces exactly
P images, one per page in page order; each is the rasterization of its page
at the fixed 2x zoom matrix, tagged "png", and named
`<pdf filename>_page_<n>` with n starting at 1. -/
theorem C8_pdf_to_images
    (rasterize : PdfPage → Nat × Nat → List Nat) (pdf : PdfFile) :
    (pdf_to_images rasterize pdf).length = pdf.pages.length ∧
    ∀ k, k < pdf.pages.length →
      (pdf_to_images rasterize pdf).getD k defaultImage
        = ⟨rasterize (pdf.pages.getD k ([] : List Nat)) (2, 2), "png",
           pdf.name ++ "_page_" ++ toString (k + 1)⟩ := by
  constructor
  · simp [pdf_to_images]
  · intro k hk
    rw [List.getD_eq_getElem?_getD]
    simp [pdf_to_images, List.getElem?_map, List.getElem?_range hk]

/-- C8 witness: the theorem applied to a concrete two-page PDF and a concrete
rasterization oracle, checked at page index 1 (the second page). -/
theorem C8_pdf_to_images_witness :
    1 < demoPdf.pages.length ∧
    ((pdf_to_images demoRasterize demoPdf).length = demoPdf.pages.length ∧
      (pdf_to_images demoRasterize demoPdf).getD 1 defaultImage
        = ⟨demoRasterize (demoPdf.pages.getD 1 ([] : List Nat)) (2, 2), "png",
           demoPdf.name ++ "_page_" ++ toString (1 + 1)⟩) :=
  ⟨by decide,
   (C8_pdf_to_images demoRasterize demoPdf).1,
   (C8_pdf_to_images demoRasterize demoPdf).2 1 (by decide)⟩
